import Mathlib

/-!
Shallow embedding of the authentication/session core of the
`mcp-server-oncalls` repository:

* `src/auth/token-manager.ts`  — `TokenManager`
* `src/auth/oncalls-client.ts` — `OncallsClient` (password-grant and OAuth
  construction paths, token refresh, `ensureAuthenticated`)
* `src/remote-server.ts`       — `authMiddleware`, the transport/session
  registry logic of the `/mcp`, `/message` and `/sse` handlers, and the
  `/oauth/callback` CSRF-state handling.

Network effects (`fetch`) are modelled by passing each call's outcome in as
data (`FetchOutcome`); stateful classes are modelled by explicit state
passing; a thrown JavaScript exception is an `Except.error` carrying the
message.  Time (`Date.now()`, milliseconds) is an explicit `Int` parameter.
-/

/-- Truthiness of a JavaScript string-or-undefined value: `undefined`,
`null` and the empty string are falsy, every other string is truthy. -/
def jsTruthy : Option String → Bool
  | none => false
  | some s => s != ""

/-- JavaScript `a || b` for a string-or-undefined `a` and a string default
`b` (an empty string is falsy and selects the default). -/
def jsOrDefault (a : Option String) (b : String) : String :=
  match a with
  | some s => if s = "" then b else s
  | none => b

/-- JavaScript `a || b` on two string-or-undefined values: yields `a` when
`a` is truthy and `b` otherwise. -/
def jsOrElse (a b : Option String) : Option String :=
  if jsTruthy a then a else b

/-- Outcome of one `fetch` call together with body parsing, as the calling
code observes it: `thrown` when the fetch or the body parse raised an
exception (carrying its message), `failed` when an HTTP response arrived
with `response.ok` false (carrying the message the handler extracts from
it), `succeeded` when `response.ok` held and the body parsed as `β`. -/
inductive FetchOutcome (β : Type) where
  | thrown (msg : String)
  | failed (errMsg : String)
  | succeeded (body : β)
deriving Repr, DecidableEq

/-- True on the two failure shapes of a `FetchOutcome`. -/
def FetchOutcome.isFailure {β : Type} : FetchOutcome β → Bool
  | .thrown _ => true
  | .failed _ => true
  | .succeeded _ => false

/-- token-manager.ts: the stored token record.  `expiresAt` is a Unix
timestamp in milliseconds. -/
structure TokenData where
  accessToken : String
  refreshToken : String
  expiresAt : Int
deriving Repr, DecidableEq

/-- token-manager.ts: `TokenManager`, holding at most one token record. -/
structure TokenManager where
  tokenData : Option TokenData
deriving Repr, DecidableEq

/-- token-manager.ts: `refreshBufferMs = 60 * 1000` (refresh one minute
before expiry). -/
def TokenManager.refreshBufferMs : Int := 60 * 1000

/-- Default value of the `expiresInSeconds` parameters of `setTokens` and
`updateAccessToken` (the call sites in oncalls-client.ts all use it). -/
def defaultExpiresInSeconds : Int := 3600

/-- token-manager.ts: `setTokens(accessToken, refreshToken,
expiresInSeconds)` — replaces the record and sets
`expiresAt = Date.now() + expiresInSeconds * 1000`. -/
def TokenManager.setTokens (tm : TokenManager) (now : Int)
    (accessToken refreshToken : String) (expiresInSeconds : Int) : TokenManager :=
  { tm with tokenData := some {
      accessToken := accessToken
      refreshToken := refreshToken
      expiresAt := now + expiresInSeconds * 1000 } }

/-- token-manager.ts: `updateAccessToken(accessToken, expiresInSeconds)` —
throws when no record was ever set, otherwise replaces the access token and
recomputes `expiresAt`. -/
def TokenManager.updateAccessToken (tm : TokenManager) (now : Int)
    (accessToken : String) (expiresInSeconds : Int) : Except String TokenManager :=
  match tm.tokenData with
  | none => .error "No token data available. Call setTokens first."
  | some d => .ok { tm with tokenData := some {
      d with accessToken := accessToken, expiresAt := now + expiresInSeconds * 1000 } }

/-- token-manager.ts: `getAccessToken()` (`null` when unset is `none`). -/
def TokenManager.getAccessToken (tm : TokenManager) : Option String :=
  tm.tokenData.map TokenData.accessToken

/-- token-manager.ts: `getRefreshToken()` (`null` when unset is `none`). -/
def TokenManager.getRefreshToken (tm : TokenManager) : Option String :=
  tm.tokenData.map TokenData.refreshToken

/-- token-manager.ts: `needsRefresh()` — true when no record is set, or when
`Date.now() >= expiresAt - refreshBufferMs`. -/
def TokenManager.needsRefresh (tm : TokenManager) (now : Int) : Bool :=
  match tm.tokenData with
  | none => true
  | some d => decide (now ≥ d.expiresAt - TokenManager.refreshBufferMs)

/-- token-manager.ts: `hasTokens()` — the source checks
`tokenData !== null && tokenData.accessToken !== null`; since `accessToken`
has TypeScript type `string` the second conjunct is vacuously true (an empty
string still passes), so the check reduces to the record being present. -/
def TokenManager.hasTokens (tm : TokenManager) : Bool :=
  tm.tokenData.isSome

/-- token-manager.ts: `clear()`. -/
def TokenManager.clear (tm : TokenManager) : TokenManager :=
  { tm with tokenData := none }

/-- types/index.ts: `UserContext`, the identity derived at session
establishment. -/
structure UserContext where
  docId : Int
  groupId : Int
  username : String
  firstName : String
  lastName : String
  email : String
  isAdmin : Bool
  viewReqs : Bool
deriving Repr, DecidableEq

/-- oncalls-client.ts: `OncallsClientConfig`. -/
structure OncallsClientConfig where
  baseUrl : String
  username : String
  password : String
deriving Repr, DecidableEq

/-- oncalls-client.ts: `OAuthClientConfig`. -/
structure OAuthClientConfig where
  baseUrl : String
  accessToken : String
  refreshToken : String
  clientId : String
  clientSecret : String
  tokenUrl : String
deriving Repr, DecidableEq

/-- oncalls-client.ts: the nested `data` object of the login response. -/
structure OncallsLoginData where
  GroupId : Int
  docid : Int
  viewReqs : Bool
  Admin : Bool
  fname : String
  lname : String
  user_email : String
  isdoc : Bool
deriving Repr, DecidableEq

/-- oncalls-client.ts: `OncallsLoginResponse` — the upstream login endpoint's
2xx body.  Its success signal is the boolean `status` field. -/
structure OncallsLoginResponse where
  status : Bool
  message : Option String
  token : String
  refresh_token : String
  data : OncallsLoginData
deriving Repr, DecidableEq

/-- oncalls-client.ts: `OncallsRefreshResponse` — both fields optional. -/
structure OncallsRefreshResponse where
  access_token : Option String
  token : Option String
deriving Repr, DecidableEq

/-- oncalls-client.ts: `OAuthUserInfoResponse` — note it carries no
view-requests field of its own. -/
structure OAuthUserInfoResponse where
  sub : String
  name : String
  given_name : String
  family_name : String
  email : String
  email_verified : Bool
  group_id : Int
  is_admin : Bool
deriving Repr, DecidableEq

/-- oncalls-client.ts: body of a successful OAuth refresh-grant response. -/
structure OAuthRefreshResponse where
  access_token : String
  refresh_token : Option String
  expires_in : Option Int
deriving Repr, DecidableEq

/-- JavaScript `parseInt(s, 10)`, modelled with Lean's decimal parser (no
claim depends on `parseInt`'s handling of malformed input). -/
def parseIntTen (s : String) : Int :=
  (s.toInt?).getD 0

/-- oncalls-client.ts: the `OncallsClient` instance state: its constructor
config, its `TokenManager`, `_userContext`, and `oauthConfig`. -/
structure OncallsClient where
  config : OncallsClientConfig
  tokenManager : TokenManager
  userContext : Option UserContext
  oauthConfig : Option OAuthClientConfig
deriving Repr, DecidableEq

/-- oncalls-client.ts: `new OncallsClient(config)`. -/
def OncallsClient.create (config : OncallsClientConfig) : OncallsClient :=
  { config := config
    tokenManager := { tokenData := none }
    userContext := none
    oauthConfig := none }

/-- oncalls-client.ts: the `isAuthenticated` getter —
`_userContext !== null && tokenManager.hasTokens()`. -/
def OncallsClient.isAuthenticated (c : OncallsClient) : Bool :=
  c.userContext.isSome && c.tokenManager.hasTokens

/-- oncalls-client.ts: `authenticate()` — POSTs the stored credentials to
the login endpoint.  A non-2xx response or a thrown fetch is an error; a 2xx
body with `status !== true` is also an error (thrown before any state is
written, so neither tokens nor `_userContext` are touched); only a 2xx body
with `status === true` seeds the `TokenManager` and sets the identity. -/
def OncallsClient.authenticate (c : OncallsClient) (now : Int)
    (loginResult : FetchOutcome OncallsLoginResponse) : Except String OncallsClient :=
  match loginResult with
  | .thrown msg => .error msg
  | .failed errMsg => .error ("Authentication failed: " ++ errMsg)
  | .succeeded data =>
    if data.status = false then
      .error ("Authentication failed: " ++ jsOrDefault data.message "Unknown error")
    else
      .ok { c with
        tokenManager :=
          c.tokenManager.setTokens now data.token data.refresh_token defaultExpiresInSeconds
        userContext := some {
          docId := data.data.docid
          groupId := data.data.GroupId
          username := c.config.username
          firstName := data.data.fname
          lastName := data.data.lname
          email := data.data.user_email
          isAdmin := data.data.Admin
          viewReqs := data.data.viewReqs } }

/-- oncalls-client.ts: `OncallsClient.fromOAuthTokens(oauthConfig)` — seeds
the `TokenManager` directly from the supplied tokens, then derives the
identity from the userinfo endpoint; a failed userinfo call fails the whole
construction.  `viewReqs` is set to the userinfo `is_admin` flag. -/
def OncallsClient.fromOAuthTokens (oauthConfig : OAuthClientConfig) (now : Int)
    (userInfoResult : FetchOutcome OAuthUserInfoResponse) : Except String OncallsClient :=
  let base : OncallsClient :=
    { config := { baseUrl := oauthConfig.baseUrl, username := "", password := "" }
      tokenManager := (TokenManager.mk none).setTokens now
        oauthConfig.accessToken oauthConfig.refreshToken defaultExpiresInSeconds
      userContext := none
      oauthConfig := some oauthConfig }
  match userInfoResult with
  | .thrown msg => .error msg
  | .failed statusText => .error ("Failed to get user info: " ++ statusText)
  | .succeeded userInfo =>
    .ok { base with userContext := some {
      docId := parseIntTen userInfo.sub
      groupId := userInfo.group_id
      username := userInfo.email
      firstName := userInfo.given_name
      lastName := userInfo.family_name
      email := userInfo.email
      isAdmin := userInfo.is_admin
      viewReqs := userInfo.is_admin } }

/-- Outcomes of the network calls one `ensureAuthenticated()` pass may
perform, plus the current time. -/
structure NetEnv where
  now : Int
  loginResult : FetchOutcome OncallsLoginResponse
  refreshResult : FetchOutcome OncallsRefreshResponse
  oauthRefreshResult : FetchOutcome OAuthRefreshResponse

/-- oncalls-client.ts: `refreshOAuthToken()` — refresh-token grant against
the issuer's token endpoint; any failure inside the try block is converted
by the catch handler into the terminal "OAuth session expired" error. -/
def OncallsClient.refreshOAuthToken (c : OncallsClient) (env : NetEnv) :
    Except String OncallsClient :=
  match c.oauthConfig with
  | none => .error "OAuth not configured"
  | some _ =>
    if jsTruthy c.tokenManager.getRefreshToken = false then
      .error "No refresh token available"
    else
      match env.oauthRefreshResult with
      | .thrown _ => .error "OAuth session expired. Please re-authenticate."
      | .failed _ => .error "OAuth session expired. Please re-authenticate."
      | .succeeded data =>
        match c.tokenManager.updateAccessToken env.now data.access_token
            defaultExpiresInSeconds with
        | .error _ => .error "OAuth session expired. Please re-authenticate."
        | .ok tm =>
          let tm2 :=
            if jsTruthy data.refresh_token then
              tm.setTokens env.now data.access_token (data.refresh_token.getD "")
                defaultExpiresInSeconds
            else tm
          .ok { c with tokenManager := tm2 }

/-- oncalls-client.ts: an `authenticate()` awaited inside the try block of
`refreshToken()`: if it throws, the catch handler runs `authenticate()` once
more (whose outcome, error included, is then the overall outcome). -/
def OncallsClient.reAuthInTry (c : OncallsClient) (env : NetEnv) :
    Except String OncallsClient :=
  match c.authenticate env.now env.loginResult with
  | .ok c2 => .ok c2
  | .error _ => c.authenticate env.now env.loginResult

/-- oncalls-client.ts: `refreshToken()`.  With no (or an empty) refresh
token: OAuth sessions fail terminally, password sessions re-authenticate.
Otherwise OAuth sessions delegate to `refreshOAuthToken`; password sessions
call the refresh endpoint and fall back to a full `authenticate()` on any
failure (non-2xx, missing token in the body, or a thrown error). -/
def OncallsClient.refreshToken (c : OncallsClient) (env : NetEnv) :
    Except String OncallsClient :=
  if jsTruthy c.tokenManager.getRefreshToken = false then
    match c.oauthConfig with
    | some _ => .error "OAuth session expired. Please re-authenticate."
    | none => c.authenticate env.now env.loginResult
  else
    match c.oauthConfig with
    | some _ => c.refreshOAuthToken env
    | none =>
      match env.refreshResult with
      | .thrown _ => c.authenticate env.now env.loginResult
      | .failed _ => c.reAuthInTry env
      | .succeeded data =>
        let newToken := jsOrElse data.access_token data.token
        if jsTruthy newToken then
          match c.tokenManager.updateAccessToken env.now (newToken.getD "")
              defaultExpiresInSeconds with
          | .ok tm => .ok { c with tokenManager := tm }
          | .error _ => c.reAuthInTry env
        else
          c.reAuthInTry env

/-- oncalls-client.ts: `ensureAuthenticated()` — with no tokens, an OAuth
session fails terminally and a password session authenticates; with tokens
that need refreshing it refreshes; otherwise it is a no-op. -/
def OncallsClient.ensureAuthenticated (c : OncallsClient) (env : NetEnv) :
    Except String OncallsClient :=
  if c.tokenManager.hasTokens = false then
    match c.oauthConfig with
    | some _ => .error "OAuth session expired. Please re-authenticate."
    | none => c.authenticate env.now env.loginResult
  else if c.tokenManager.needsRefresh env.now then
    c.refreshToken env
  else
    .ok c

/-- JavaScript `s.startsWith(p)`, computed over the character lists (the
core library's iterator-based version is extensionally the same). -/
def strStartsWith (s p : String) : Bool := p.data.isPrefixOf s.data

/-- Splits a character list at every occurrence of `sep`. -/
def splitChars (sep : Char) : List Char → List (List Char)
  | [] => [[]]
  | c :: cs =>
    let rest := splitChars sep cs
    if c = sep then [] :: rest
    else (c :: rest.headD []) :: rest.tail

/-- JavaScript `s.split(sep)` for a one-character separator, computed over
the character lists (`''.split(sep)` is `['']`, adjacent separators yield
empty segments). -/
def jsSplit (s : String) (sep : Char) : List String :=
  (splitChars sep s.data).map String.mk

/-- remote-server.ts: the environment `authMiddleware` runs in.
`oauthAuth t` is the observable outcome of
`OncallsClient.fromOAuthTokens({.., accessToken: t, ..})` — the resulting
identity on success, the thrown message on failure; `passwordAuth u p` is
the outcome of `new OncallsClient({baseUrl, username: u, password: p})
.authenticate()`; `b64decode` is `Buffer.from(s, 'base64').toString('utf-8')`
(total in Node, best-effort on malformed input); `nowMs` is `Date.now()`
and `rand` is `Math.random().toString(36).slice(2)` at the moment a session
identifier is minted. -/
structure AuthEnv where
  baseUrlConfigured : Bool
  oauthAuth : String → Except String UserContext
  passwordAuth : String → String → Except String UserContext
  b64decode : String → String
  nowMs : Int
  rand : String

/-- remote-server.ts: the credential-carrying parts of an inbound request as
`authMiddleware` reads them. -/
structure AuthRequest where
  authorization : Option String
  xOncallsUsername : Option String
  xOncallsPassword : Option String
  queryUsername : Option String
  queryPassword : Option String
  queryAccessToken : Option String

/-- Which of the middleware's authentication methods resolved the request. -/
inductive AuthMethod where
  | oauthBearer
  | legacyBearer
  | legacyHeaders
  | legacyQuery
  | oauthQuery
deriving Repr, DecidableEq

/-- Observable outcome of `authMiddleware`: the 500 configuration error, a
successful resolution (with the minted session identifier and identity), the
401 `unauthorized` response, or the 401 `invalid_token` response produced by
the outer catch handler. -/
inductive AuthOutcome where
  | serverNotConfigured
  | authenticated (method : AuthMethod) (sessionId : String) (user : UserContext)
  | unauthorized
  | invalidToken (msg : String)
deriving Repr, DecidableEq

/-- remote-server.ts: the session identifier minted on the OAuth paths —
`oauth-${Date.now()}-${Math.random().toString(36).slice(2)}`. -/
def oauthSessionId (env : AuthEnv) : String :=
  "oauth-" ++ toString env.nowMs ++ "-" ++ env.rand

/-- remote-server.ts: the session identifier minted on the password paths —
`${username}-${Date.now()}-${Math.random().toString(36).slice(2)}`. -/
def legacySessionId (env : AuthEnv) (username : String) : String :=
  username ++ "-" ++ toString env.nowMs ++ "-" ++ env.rand

/-- remote-server.ts lines 183-202: the try block that decodes a bearer
token as `base64(username:password)` and attempts a password-grant login.
Destructuring `decoded.split(':')` gives the first two segments (the second
is `undefined` when absent); both must be truthy.  Any failure is swallowed
by the catch and yields `none` (fall through to the next method). -/
def legacyBearerAttempt (env : AuthEnv) (token : String) : Option (String × UserContext) :=
  let decoded := env.b64decode token
  let parts := jsSplit decoded ':'
  let username := parts.head?
  let password := parts[1]?
  if jsTruthy username && jsTruthy password then
    match env.passwordAuth (username.getD "") (password.getD "") with
    | .ok user => some (legacySessionId env (username.getD ""), user)
    | .error _ => none
  else none

/-- remote-server.ts lines 205-281: methods 2-4 of `authMiddleware` (custom
headers, query credentials, `access_token` query parameter) and the final
401 `unauthorized` response.  A failed `authenticate()` in methods 2 and 3
propagates to the outer catch and becomes the 401 `invalid_token` response;
a failed method 4 is caught locally and falls through to `unauthorized`. -/
def authMethodsAfterBearer (env : AuthEnv) (req : AuthRequest) : AuthOutcome :=
  if jsTruthy req.xOncallsUsername && jsTruthy req.xOncallsPassword then
    match env.passwordAuth (req.xOncallsUsername.getD "") (req.xOncallsPassword.getD "") with
    | .ok user =>
      .authenticated .legacyHeaders (legacySessionId env (req.xOncallsUsername.getD "")) user
    | .error msg => .invalidToken msg
  else if jsTruthy req.queryUsername && jsTruthy req.queryPassword then
    match env.passwordAuth (req.queryUsername.getD "") (req.queryPassword.getD "") with
    | .ok user =>
      .authenticated .legacyQuery (legacySessionId env (req.queryUsername.getD "")) user
    | .error msg => .invalidToken msg
  else if jsTruthy req.queryAccessToken then
    match env.oauthAuth (req.queryAccessToken.getD "") with
    | .ok user => .authenticated .oauthQuery (oauthSessionId env) user
    | .error _ => .unauthorized
  else .unauthorized

/-- remote-server.ts lines 138-296: `authMiddleware`.  A bearer token shaped
like a three-segment dot-delimited token first attempts the OAuth path; on
failure it falls through to the base64-credential interpretation, and then
to the remaining methods. -/
def authMiddleware (env : AuthEnv) (req : AuthRequest) : AuthOutcome :=
  if env.baseUrlConfigured = false then .serverNotConfigured
  else
    match req.authorization with
    | some ah =>
      if strStartsWith ah "Bearer " then
        let token := ah.drop 7
        let oauthOutcome :=
          if (jsSplit token '.').length = 3 then
            match env.oauthAuth token with
            | .ok user => some (AuthOutcome.authenticated .oauthBearer (oauthSessionId env) user)
            | .error _ => none
          else none
        match oauthOutcome with
        | some outcome => outcome
        | none =>
          match legacyBearerAttempt env token with
          | some su => .authenticated .legacyBearer su.1 su.2
          | none => authMethodsAfterBearer env req
      else authMethodsAfterBearer env req
    | none => authMethodsAfterBearer env req

/-- remote-server.ts: the two wire protocols a registered transport can
serve (`SSEServerTransport` and `StreamableHTTPServerTransport`). -/
inductive Protocol where
  | sse
  | streamableHttp
deriving Repr, DecidableEq

/-- remote-server.ts: the `activeTransports` map, reduced to the protocol
tag each registered session identifier is bound to. -/
abbrev Registry := List (String × Protocol)

/-- JavaScript `Map.set`: replaces any existing binding of the key. -/
def Registry.set (reg : Registry) (sid : String) (p : Protocol) : Registry :=
  (sid, p) :: reg.filter (fun e => e.1 ≠ sid)

/-- Observable outcome of one transport-endpoint request, as far as the
session registry is concerned. -/
inductive McpResponse where
  | handled
  | sessionCreated (newId : String)
  | wrongProtocol
  | sessionNotFound
  | badRequest
  | missingSessionId
deriving Repr, DecidableEq

/-- remote-server.ts lines 561-653: the registry logic of the
`app.all('/mcp')` handler.  `isPostInitialize` stands for
`req.method === 'POST' && isInitializeRequest(req.body)`; `freshId` is the
`randomUUID()` the session-id generator would mint. -/
def handleMcp (reg : Registry) (headerSessionId : Option String)
    (isPostInitialize : Bool) (freshId : String) : McpResponse × Registry :=
  if jsTruthy headerSessionId && (reg.lookup (headerSessionId.getD "")).isSome then
    match reg.lookup (headerSessionId.getD "") with
    | some .streamableHttp => (.handled, reg)
    | _ => (.wrongProtocol, reg)
  else if jsTruthy headerSessionId = false && isPostInitialize then
    (.sessionCreated freshId, reg.set freshId .streamableHttp)
  else if jsTruthy headerSessionId then
    (.sessionNotFound, reg)
  else
    (.badRequest, reg)

/-- remote-server.ts lines 692-717: the `app.post('/message')` handler —
the legacy transport's message-delivery endpoint, keyed by the `sessionId`
query parameter. -/
def handleMessage (reg : Registry) (querySessionId : Option String) :
    McpResponse × Registry :=
  if jsTruthy querySessionId = false then (.missingSessionId, reg)
  else
    match reg.lookup (querySessionId.getD "") with
    | none => (.sessionNotFound, reg)
    | some .sse => (.handled, reg)
    | some .streamableHttp => (.wrongProtocol, reg)

/-- remote-server.ts lines 722-822: the `app.post('/sse')` handler.  With no
`sessionId` query parameter it behaves like `/mcp` (streamable HTTP); with
one it behaves like `/message` (legacy SSE delivery). -/
def handleSsePost (reg : Registry) (querySessionId headerSessionId : Option String)
    (isInitialize : Bool) (freshId : String) : McpResponse × Registry :=
  if jsTruthy querySessionId = false then
    if jsTruthy headerSessionId && (reg.lookup (headerSessionId.getD "")).isSome then
      match reg.lookup (headerSessionId.getD "") with
      | some .streamableHttp => (.handled, reg)
      | _ => (.wrongProtocol, reg)
    else if jsTruthy headerSessionId = false && isInitialize then
      (.sessionCreated freshId, reg.set freshId .streamableHttp)
    else if jsTruthy headerSessionId then
      (.sessionNotFound, reg)
    else
      (.badRequest, reg)
  else
    match reg.lookup (querySessionId.getD "") with
    | none => (.sessionNotFound, reg)
    | some .sse => (.handled, reg)
    | some .streamableHttp => (.wrongProtocol, reg)

/-- remote-server.ts lines 660-688: the `app.get('/sse')` handler registers
the SSE transport's freshly generated session identifier. -/
def handleSseGet (reg : Registry) (transportSessionId : String) : Registry :=
  reg.set transportSessionId .sse

/-- remote-server.ts: one entry of the `oauthStates` CSRF map. -/
structure OAuthStateData where
  createdAt : Int
  redirectAfterAuth : Option String
deriving Repr, DecidableEq

/-- remote-server.ts: the `oauthStates` map. -/
abbrev OAuthStates := List (String × OAuthStateData)

/-- JavaScript `Map.delete` on the CSRF-state map. -/
def OAuthStates.delete (st : OAuthStates) (s : String) : OAuthStates :=
  st.filter (fun e => e.1 ≠ s)

/-- JavaScript `Map.set` on the CSRF-state map. -/
def OAuthStates.set (st : OAuthStates) (s : String) (d : OAuthStateData) : OAuthStates :=
  (s, d) :: st.filter (fun e => e.1 ≠ s)

/-- remote-server.ts lines 386-410: `app.get('/oauth/start')` registers a
freshly generated CSRF state token. -/
def oauthStart (st : OAuthStates) (freshState : String) (now : Int)
    (redirect : Option String) : OAuthStates :=
  st.set freshState { createdAt := now, redirectAfterAuth := redirect }

/-- remote-server.ts: body of a successful token-endpoint response. -/
structure OAuthTokenResponse where
  access_token : String
  token_type : String
  expires_in : Int
  refresh_token : String
  scope : String
deriving Repr, DecidableEq

/-- Observable outcome of the `/oauth/callback` handler. -/
inductive CallbackResult where
  | providerError (e : String)
  | invalidState
  | missingCode
  | tokenExchangeFailed
  | serverError
  | success (tokens : OAuthTokenResponse)
deriving Repr, DecidableEq

/-- remote-server.ts lines 415-495: `app.get('/oauth/callback')`.  An
upstream `error` query parameter short-circuits; an absent or unknown
`state` fails with `invalid_state`; a known state is deleted (single use)
before the `code` check and the token exchange run. -/
def oauthCallback (states : OAuthStates) (code state errorParam : Option String)
    (exchangeResult : FetchOutcome OAuthTokenResponse) : CallbackResult × OAuthStates :=
  if jsTruthy errorParam then (.providerError (errorParam.getD ""), states)
  else if jsTruthy state = false || (states.lookup (state.getD "")).isNone then
    (.invalidState, states)
  else
    let states2 := states.delete (state.getD "")
    if jsTruthy code = false then (.missingCode, states2)
    else
      match exchangeResult with
      | .failed _ => (.tokenExchangeFailed, states2)
      | .thrown _ => (.serverError, states2)
      | .succeeded tokens => (.success tokens, states2)

/-- One operation a caller can perform on an `OncallsClient` session that
can change its token or identity state (`get`/`post`/`put` touch that state
only through their initial `ensureAuthenticated()` call). -/
inductive SessionOp where
  | doAuthenticate (now : Int) (loginResult : FetchOutcome OncallsLoginResponse)
  | doEnsureAuthenticated (env : NetEnv)

/-- The state a caller observes after a call: the updated client on
success, the unchanged client when the call threw (no modelled path mutates
state before it throws). -/
def applyExcept (c : OncallsClient) : Except String OncallsClient → OncallsClient
  | .ok c2 => c2
  | .error _ => c

/-- Applies one operation to the session state. -/
def stepOp (c : OncallsClient) : SessionOp → OncallsClient
  | .doAuthenticate now r => applyExcept c (c.authenticate now r)
  | .doEnsureAuthenticated env => applyExcept c (c.ensureAuthenticated env)

/-- Runs a sequence of operations on a session. -/
def runOps (c : OncallsClient) : List SessionOp → OncallsClient
  | [] => c
  | op :: ops => runOps (stepOp c op) ops

/-- The access-token invariant under scrutiny: an authenticated session
holds a non-empty access token. -/
def tokensGood (c : OncallsClient) : Prop :=
  c.isAuthenticated = true → ∃ t, c.tokenManager.getAccessToken = some t ∧ t ≠ ""

/-- A login outcome whose stored token (if any) is non-empty. -/
def loginResultGood : FetchOutcome OncallsLoginResponse → Prop
  | .succeeded d => d.token ≠ ""
  | _ => True

/-- An OAuth refresh outcome whose stored token (if any) is non-empty. -/
def oauthRefreshGood : FetchOutcome OAuthRefreshResponse → Prop
  | .succeeded d => d.access_token ≠ ""
  | _ => True

/-- All upstream-supplied tokens an `ensureAuthenticated()` pass could store
are non-empty (the password-grant refresh endpoint needs no such condition:
its token is stored only after a truthiness check). -/
def envGood (env : NetEnv) : Prop :=
  loginResultGood env.loginResult ∧ oauthRefreshGood env.oauthRefreshResult

/-- All upstream-supplied tokens one operation could store are non-empty. -/
def opGood : SessionOp → Prop
  | .doAuthenticate _ r => loginResultGood r
  | .doEnsureAuthenticated env => envGood env

/-- Claim C1: `authenticate()` succeeds exactly when the login fetch yields
a 2xx response whose body has `status === true`; a 2xx body with any other
`status` is an authentication failure (thrown before tokens or identity are
written, which the embedding mirrors by erroring before constructing the
updated client state). -/
theorem C1_authenticate_requires_status_true (c : OncallsClient) (now : Int)
    (r : FetchOutcome OncallsLoginResponse) :
    ((∃ c2, c.authenticate now r = .ok c2) ↔
      ∃ d, r = .succeeded d ∧ d.status = true) ∧
    (∀ d, r = .succeeded d → d.status = false →
      c.authenticate now r =
        .error ("Authentication failed: " ++ jsOrDefault d.message "Unknown error")) := by
  constructor
  · constructor
    · rintro ⟨c2, h⟩
      cases r with
      | thrown m => simp [OncallsClient.authenticate] at h
      | failed m => simp [OncallsClient.authenticate] at h
      | succeeded d =>
        refine ⟨d, rfl, ?_⟩
        by_contra hs
        rw [Bool.not_eq_true] at hs
        simp [OncallsClient.authenticate, hs] at h
    · rintro ⟨d, hr, hs⟩
      subst hr
      refine ⟨{ c with
        tokenManager :=
          c.tokenManager.setTokens now d.token d.refresh_token defaultExpiresInSeconds
        userContext := some {
          docId := d.data.docid
          groupId := d.data.GroupId
          username := c.config.username
          firstName := d.data.fname
          lastName := d.data.lname
          email := d.data.user_email
          isAdmin := d.data.Admin
          viewReqs := d.data.viewReqs } }, ?_⟩
      unfold OncallsClient.authenticate
      simp [hs]
  · intro d hr hs
    subst hr
    simp [OncallsClient.authenticate, hs]

/-- Login body with HTTP 200 shape but `status: false`, used to exercise the
failure clause of the claim-C1 theorem. -/
def statusFalseBody : OncallsLoginResponse :=
  { status := false
    message := some "Invalid credentials"
    token := "tok"
    refresh_token := "ref"
    data :=
      { GroupId := 1, docid := 7, viewReqs := true, Admin := false,
        fname := "Ada", lname := "Lee", user_email := "ada@example.org", isdoc := true } }

/-- Concrete instance of the claim-C1 theorem: a 2xx login response with
`status: false` makes `authenticate()` fail. -/
theorem C1_authenticate_requires_status_true_witness :
    (OncallsClient.create
        { baseUrl := "https://v3.oncalls.com/api", username := "ada", password := "pw" }
      ).authenticate 0 (.succeeded statusFalseBody) =
      .error ("Authentication failed: " ++ jsOrDefault statusFalseBody.message "Unknown error") :=
  (C1_authenticate_requires_status_true
    (OncallsClient.create
      { baseUrl := "https://v3.oncalls.com/api", username := "ada", password := "pw" })
    0 (.succeeded statusFalseBody)).2 statusFalseBody rfl rfl

/-- Claim C6: `needsRefresh()` is true exactly when no tokens are set or
`now ≥ expiresAt - 60 s` (the buffer is 60 000 ms), and is false at the time
of a `setTokens`/`updateAccessToken` whose time-to-live exceeds 60 s. -/
theorem C6_needsRefresh_characterization (tm : TokenManager) (now : Int) :
    (tm.needsRefresh now = true ↔
      (tm.tokenData = none ∨ ∃ d, tm.tokenData = some d ∧ now ≥ d.expiresAt - 60 * 1000)) ∧
    (∀ a r ttl, 60 < ttl → (tm.setTokens now a r ttl).needsRefresh now = false) ∧
    (∀ a ttl tm2, 60 < ttl → tm.updateAccessToken now a ttl = .ok tm2 →
      tm2.needsRefresh now = false) := by
  refine ⟨?_, ?_, ?_⟩
  · cases htd : tm.tokenData with
    | none => simp [TokenManager.needsRefresh, htd]
    | some d =>
      simp [TokenManager.needsRefresh, htd, TokenManager.refreshBufferMs]
  · intro a r ttl h
    simp only [TokenManager.setTokens, TokenManager.needsRefresh,
      TokenManager.refreshBufferMs, decide_eq_false_iff_not, not_le]
    omega
  · intro a ttl tm2 h hup
    cases htd : tm.tokenData with
    | none => simp [TokenManager.updateAccessToken, htd] at hup
    | some d =>
      simp only [TokenManager.updateAccessToken, htd, Except.ok.injEq] at hup
      subst hup
      simp only [TokenManager.needsRefresh, TokenManager.refreshBufferMs,
        decide_eq_false_iff_not, not_le]
      omega

/-- Concrete instance of the claim-C6 theorem: an empty store needs a
refresh, and a store freshly set with a 3600 s time-to-live does not. -/
theorem C6_needsRefresh_characterization_witness :
    (TokenManager.mk none).needsRefresh 0 = true ∧
    ((TokenManager.mk none).setTokens 0 "a" "r" 3600).needsRefresh 0 = false :=
  ⟨((C6_needsRefresh_characterization (TokenManager.mk none) 0).1).2 (Or.inl rfl),
   ((C6_needsRefresh_characterization (TokenManager.mk none) 0).2).1 "a" "r" 3600 (by norm_num)⟩

/-- Claim C10: an OAuth-constructed session's `viewReqs` flag equals the
userinfo `is_admin` flag (the userinfo payload has no view-requests field of
its own to consult), while a password-grant session takes `viewReqs` from
the login payload's `viewReqs` field — for every login body with
`status: true`, regardless of its `Admin` flag. -/
theorem C10_viewReqs_source (cfg : OAuthClientConfig) (now : Int)
    (u : OAuthUserInfoResponse) (c : OncallsClient) (r : OncallsLoginResponse) :
    ((OncallsClient.fromOAuthTokens cfg now (.succeeded u)).map
        (fun c2 => c2.userContext.map UserContext.viewReqs) = .ok (some u.is_admin)) ∧
    (r.status = true →
      (c.authenticate now (.succeeded r)).map
        (fun c2 => c2.userContext.map UserContext.viewReqs) = .ok (some r.data.viewReqs)) := by
  constructor
  · simp [OncallsClient.fromOAuthTokens, Except.map]
  · intro hs
    simp [OncallsClient.authenticate, hs, Except.map]

/-- Userinfo body for a non-admin OAuth user. -/
def nonAdminUserInfo : OAuthUserInfoResponse :=
  { sub := "42", name := "Ada Lee", given_name := "Ada", family_name := "Lee",
    email := "ada@example.org", email_verified := true, group_id := 3, is_admin := false }

/-- Login body with `status: true`, `Admin: false` and `viewReqs: true`. -/
def viewReqsTrueBody : OncallsLoginResponse :=
  { status := true
    message := none
    token := "tok"
    refresh_token := "ref"
    data :=
      { GroupId := 3, docid := 42, viewReqs := true, Admin := false,
        fname := "Ada", lname := "Lee", user_email := "ada@example.org", isdoc := true } }

/-- Concrete instance of the claim-C10 theorem: a non-admin OAuth user gets
`viewReqs = false` while a password login with `viewReqs: true` in its
payload gets `viewReqs = true` despite `Admin: false`. -/
theorem C10_viewReqs_source_witness :
    ((OncallsClient.fromOAuthTokens
        { baseUrl := "https://v3.oncalls.com/api", accessToken := "at", refreshToken := "rt",
          clientId := "cid", clientSecret := "cs", tokenUrl := "https://v3.oncalls.com/oauth/token" }
        0 (.succeeded nonAdminUserInfo)).map
      (fun c2 => c2.userContext.map UserContext.viewReqs) = .ok (some false)) ∧
    ((OncallsClient.create
        { baseUrl := "https://v3.oncalls.com/api", username := "ada", password := "pw" }
      ).authenticate 0 (.succeeded viewReqsTrueBody)).map
      (fun c2 => c2.userContext.map UserContext.viewReqs) = .ok (some true) :=
  ⟨(C10_viewReqs_source
      { baseUrl := "https://v3.oncalls.com/api", accessToken := "at", refreshToken := "rt",
        clientId := "cid", clientSecret := "cs", tokenUrl := "https://v3.oncalls.com/oauth/token" }
      0 nonAdminUserInfo
      (OncallsClient.create
        { baseUrl := "https://v3.oncalls.com/api", username := "ada", password := "pw" })
      viewReqsTrueBody).1,
   (C10_viewReqs_source
      { baseUrl := "https://v3.oncalls.com/api", accessToken := "at", refreshToken := "rt",
        clientId := "cid", clientSecret := "cs", tokenUrl := "https://v3.oncalls.com/oauth/token" }
      0 nonAdminUserInfo
      (OncallsClient.create
        { baseUrl := "https://v3.oncalls.com/api", username := "ada", password := "pw" })
      viewReqsTrueBody).2 rfl⟩

/-- The outcome of an `authenticate()` awaited inside the try block (caught
and retried once by the catch handler) equals a single `authenticate()`
outcome, because the modelled fetch outcomes are fixed for the pass. -/
lemma reAuthInTry_eq (c : OncallsClient) (env : NetEnv) :
    c.reAuthInTry env = c.authenticate env.now env.loginResult := by
  unfold OncallsClient.reAuthInTry
  cases h : c.authenticate env.now env.loginResult <;> simp

/-- Claim C2: for an OAuth-constructed session that needs a token refresh,
if no refresh token is stored (absent or empty) or the refresh grant against
the issuer fails, `ensureAuthenticated()` fails with the terminal
"OAuth session expired" error.  The conclusion holds for every
`env.loginResult`, so the outcome is independent of the password-grant login
endpoint: it is never consulted. -/
theorem C2_oauth_refresh_failure_terminal (c : OncallsClient) (cfg : OAuthClientConfig)
    (env : NetEnv)
    (hcfg : c.oauthConfig = some cfg)
    (hneed : c.tokenManager.needsRefresh env.now = true)
    (hfail : jsTruthy c.tokenManager.getRefreshToken = false ∨
      env.oauthRefreshResult.isFailure = true) :
    c.ensureAuthenticated env = .error "OAuth session expired. Please re-authenticate." := by
  unfold OncallsClient.ensureAuthenticated
  cases hht : c.tokenManager.hasTokens with
  | false => simp [hcfg]
  | true =>
    simp only [hht, Bool.true_eq_false, if_false, hneed, if_true]
    unfold OncallsClient.refreshToken
    cases hrt : jsTruthy c.tokenManager.getRefreshToken with
    | false => simp [hcfg]
    | true =>
      simp only [hrt, Bool.true_eq_false, if_false, hcfg]
      unfold OncallsClient.refreshOAuthToken
      simp only [hcfg, hrt, Bool.true_eq_false, if_false]
      rcases hfail with h | h
      · rw [hrt] at h; exact absurd h (by simp)
      · cases hres : env.oauthRefreshResult with
        | thrown m => rfl
        | failed m => rfl
        | succeeded d => rw [hres] at h; simp [FetchOutcome.isFailure] at h

/-- OAuth-constructed session whose stored refresh token is the empty string
(the middleware's OAuth bearer path supplies `refreshToken: ''`). -/
def expiredOAuthClient : OncallsClient :=
  { config := { baseUrl := "https://v3.oncalls.com/api", username := "", password := "" }
    tokenManager := { tokenData := some { accessToken := "at", refreshToken := "", expiresAt := 3600000 } }
    userContext := some {
      docId := 42, groupId := 3, username := "ada@example.org", firstName := "Ada",
      lastName := "Lee", email := "ada@example.org", isAdmin := false, viewReqs := false }
    oauthConfig := some {
      baseUrl := "https://v3.oncalls.com/api", accessToken := "at", refreshToken := "",
      clientId := "cid", clientSecret := "cs", tokenUrl := "https://v3.oncalls.com/oauth/token" } }

/-- Concrete instance of the claim-C2 theorem: an OAuth session with an
empty refresh token and an expired access token fails terminally — even
though the provided login outcome would have succeeded. -/
theorem C2_oauth_refresh_failure_terminal_witness :
    expiredOAuthClient.ensureAuthenticated
      { now := 7200000
        loginResult := .succeeded viewReqsTrueBody
        refreshResult := .failed "502"
        oauthRefreshResult := .failed "invalid_grant" } =
      .error "OAuth session expired. Please re-authenticate." :=
  C2_oauth_refresh_failure_terminal expiredOAuthClient
    { baseUrl := "https://v3.oncalls.com/api", accessToken := "at", refreshToken := "",
      clientId := "cid", clientSecret := "cs", tokenUrl := "https://v3.oncalls.com/oauth/token" }
    { now := 7200000
      loginResult := .succeeded viewReqsTrueBody
      refreshResult := .failed "502"
      oauthRefreshResult := .failed "invalid_grant" }
    rfl (by decide) (Or.inl (by decide))

/-- A refresh-endpoint outcome the password path treats as a failure: the
fetch threw, the response was non-2xx, or the 2xx body carried no token. -/
def refreshCallFailed : FetchOutcome OncallsRefreshResponse → Prop
  | .thrown _ => True
  | .failed _ => True
  | .succeeded d => jsTruthy (jsOrElse d.access_token d.token) = false

/-- Claim C3: a password-grant session whose refresh call fails, for any
reason, behaves exactly as a fresh full `authenticate()` with the stored
credentials: the refresh failure is invisible, and when re-authentication
also fails the surfaced error is the re-authentication error. -/
theorem C3_password_refresh_falls_back (c : OncallsClient) (env : NetEnv)
    (hpw : c.oauthConfig = none) (hfail : refreshCallFailed env.refreshResult) :
    c.refreshToken env = c.authenticate env.now env.loginResult := by
  unfold OncallsClient.refreshToken
  cases hrt : jsTruthy c.tokenManager.getRefreshToken with
  | false => simp [hpw]
  | true =>
    simp only [hrt, Bool.true_eq_false, if_false, hpw]
    cases hres : env.refreshResult with
    | thrown m => rfl
    | failed m => exact reAuthInTry_eq c env
    | succeeded d =>
      rw [hres] at hfail
      unfold refreshCallFailed at hfail
      simp only [hfail, Bool.false_eq_true, if_false]
      exact reAuthInTry_eq c env

/-- Password-grant session with an expired access token, used to exercise
the claim-C3 theorem. -/
def stalePasswordClient : OncallsClient :=
  { config := { baseUrl := "https://v3.oncalls.com/api", username := "ada", password := "pw" }
    tokenManager := { tokenData := some { accessToken := "at", refreshToken := "rt", expiresAt := 3600000 } }
    userContext := some {
      docId := 42, groupId := 3, username := "ada", firstName := "Ada",
      lastName := "Lee", email := "ada@example.org", isAdmin := false, viewReqs := false }
    oauthConfig := none }

/-- Concrete instance of the claim-C3 theorem: with a failing refresh
endpoint and failing credentials, the surfaced error is the
re-authentication error, not the refresh error. -/
theorem C3_password_refresh_falls_back_witness :
    stalePasswordClient.refreshToken
      { now := 7200000
        loginResult := .failed "Invalid credentials"
        refreshResult := .failed "refresh exploded"
        oauthRefreshResult := .failed "unused" } =
      .error "Authentication failed: Invalid credentials" :=
  C3_password_refresh_falls_back stalePasswordClient
    { now := 7200000
      loginResult := .failed "Invalid credentials"
      refreshResult := .failed "refresh exploded"
      oauthRefreshResult := .failed "unused" }
    rfl trivial

/-- Claim C7: a request whose bearer token is three-segment dot-delimited
(JWT-shaped) but fails OAuth authentication, whose base64-credential
interpretation also fails, and which carries valid username/password custom
headers, is resolved successfully by the custom-header password-grant
method instead of being rejected. -/
theorem C7_jwt_bearer_falls_through_to_headers (env : AuthEnv) (req : AuthRequest)
    (ah token hu hp : String) (user : UserContext)
    (hcfg : env.baseUrlConfigured = true)
    (hauth : req.authorization = some ah)
    (hbearer : strStartsWith ah "Bearer " = true)
    (htok : ah.drop 7 = token)
    (hjwt : (jsSplit token '.').length = 3)
    (hoauth : ∃ e, env.oauthAuth token = .error e)
    (hb64 : legacyBearerAttempt env token = none)
    (hhu : req.xOncallsUsername = some hu) (hune : hu ≠ "")
    (hhp : req.xOncallsPassword = some hp) (hpne : hp ≠ "")
    (hpwd : env.passwordAuth hu hp = .ok user) :
    authMiddleware env req =
      .authenticated .legacyHeaders (legacySessionId env hu) user := by
  obtain ⟨e, he⟩ := hoauth
  unfold authMiddleware
  rw [hcfg, hauth]
  simp only [Bool.true_eq_false, if_false, hbearer, if_true, htok, hjwt, he, hb64]
  unfold authMethodsAfterBearer
  simp [hhu, hhp, jsTruthy, hune, hpne, hpwd]

/-- Environment for the claim-C7 witness: every OAuth token is rejected,
only the credentials ada/pw are accepted, and the base64 decode of the
JWT-shaped token yields colon-free garbage. -/
def c7Env : AuthEnv :=
  { baseUrlConfigured := true
    oauthAuth := fun _ => .error "invalid token"
    passwordAuth := fun u p =>
      if u = "ada" && p = "pw" then
        .ok { docId := 42, groupId := 3, username := "ada", firstName := "Ada",
              lastName := "Lee", email := "ada@example.org", isAdmin := true, viewReqs := true }
      else .error "Authentication failed: Invalid credentials"
    b64decode := fun _ => "garbage"
    nowMs := 1700000000000
    rand := "k7f2q" }

/-- Request for the claim-C7 witness: an invalid JWT-shaped bearer token
together with valid custom credential headers. -/
def c7Req : AuthRequest :=
  { authorization := some "Bearer aa.bb.cc"
    xOncallsUsername := some "ada"
    xOncallsPassword := some "pw"
    queryUsername := none
    queryPassword := none
    queryAccessToken := none }

/-- Concrete instance of the claim-C7 theorem. -/
theorem C7_jwt_bearer_falls_through_to_headers_witness :
    authMiddleware c7Env c7Req =
      .authenticated .legacyHeaders (legacySessionId c7Env "ada")
        { docId := 42, groupId := 3, username := "ada", firstName := "Ada",
          lastName := "Lee", email := "ada@example.org", isAdmin := true, viewReqs := true } :=
  C7_jwt_bearer_falls_through_to_headers c7Env c7Req
    "Bearer aa.bb.cc" "aa.bb.cc" "ada" "pw"
    { docId := 42, groupId := 3, username := "ada", firstName := "Ada",
      lastName := "Lee", email := "ada@example.org", isAdmin := true, viewReqs := true }
    rfl rfl (by decide) (by decide) (by decide)
    ⟨"invalid token", rfl⟩ (by decide) rfl (by decide) rfl (by decide) rfl

/-- Looking a key up after deleting it from the CSRF-state map finds
nothing. -/
lemma lookup_delete (st : OAuthStates) (s : String) :
    (st.delete s).lookup s = none := by
  induction st with
  | nil => rfl
  | cons e rest ih =>
    obtain ⟨k, v⟩ := e
    unfold OAuthStates.delete at ih ⊢
    by_cases he : k = s
    · simpa [List.filter_cons, he] using ih
    · simpa [List.filter_cons, he, List.lookup_cons, beq_false_of_ne (Ne.symm he)] using ih

/-- Claim C8: a session identifier bound in the transport registry to one
protocol is rejected with the 400 wrong-protocol response — and the registry
is returned unchanged, never rebound — when presented under the other
protocol: an `/mcp` request naming an SSE session, or a `/message` post or
a legacy `/sse` post naming a streamable-HTTP session. -/
theorem C8_protocol_binding_stable (reg : Registry) (sid : String) (hsid : sid ≠ "") :
    (reg.lookup sid = some .sse →
      ∀ isPostInit freshId,
        handleMcp reg (some sid) isPostInit freshId = (.wrongProtocol, reg)) ∧
    (reg.lookup sid = some .streamableHttp →
      handleMessage reg (some sid) = (.wrongProtocol, reg) ∧
      ∀ headerSid isInit freshId,
        handleSsePost reg (some sid) headerSid isInit freshId = (.wrongProtocol, reg)) := by
  constructor
  · intro h isPostInit freshId
    unfold handleMcp
    simp [jsTruthy, hsid, h]
  · intro h
    constructor
    · unfold handleMessage
      simp [jsTruthy, hsid, h]
    · intro headerSid isInit freshId
      unfold handleSsePost
      simp [jsTruthy, hsid, h]

/-- Concrete instance of the claim-C8 theorem on a two-entry registry. -/
theorem C8_protocol_binding_stable_witness :
    handleMcp [("sse-1", Protocol.sse), ("http-1", Protocol.streamableHttp)]
        (some "sse-1") true "fresh" =
      (.wrongProtocol, [("sse-1", Protocol.sse), ("http-1", Protocol.streamableHttp)]) ∧
    handleMessage [("http-1", Protocol.streamableHttp)] (some "http-1") =
      (.wrongProtocol, [("http-1", Protocol.streamableHttp)]) ∧
    handleSsePost [("http-1", Protocol.streamableHttp)] (some "http-1") none false "fresh" =
      (.wrongProtocol, [("http-1", Protocol.streamableHttp)]) :=
  ⟨(C8_protocol_binding_stable
      [("sse-1", Protocol.sse), ("http-1", Protocol.streamableHttp)] "sse-1"
      (by decide)).1 (by decide) true "fresh",
   ((C8_protocol_binding_stable [("http-1", Protocol.streamableHttp)] "http-1"
      (by decide)).2 (by decide)).1,
   ((C8_protocol_binding_stable [("http-1", Protocol.streamableHttp)] "http-1"
      (by decide)).2 (by decide)).2 none false "fresh"⟩

/-- Claim C9: an `/oauth/callback` with an unknown CSRF state fails with
`invalid_state`; a known state is consumed (deleted) by its first matching
callback, so a second callback presenting the same state fails with
`invalid_state` even though the first succeeded. -/
theorem C9_state_single_use (states : OAuthStates) (s c : String) (d : OAuthStateData)
    (toks : OAuthTokenResponse)
    (hs : s ≠ "") (hmem : states.lookup s = some d) (hc : c ≠ "") :
    (∀ (st2 : OAuthStates) (code : Option String) (exch : FetchOutcome OAuthTokenResponse),
        st2.lookup s = none →
        (oauthCallback st2 code (some s) none exch).1 = .invalidState) ∧
    (oauthCallback states (some c) (some s) none (.succeeded toks) =
      (.success toks, states.delete s)) ∧
    (∀ (code2 : Option String) (exch2 : FetchOutcome OAuthTokenResponse),
        (oauthCallback (states.delete s) code2 (some s) none exch2).1 = .invalidState) := by
  refine ⟨?_, ?_, ?_⟩
  · intro st2 code exch hnone
    unfold oauthCallback
    simp [jsTruthy, hs, hnone]
  · unfold oauthCallback
    simp [jsTruthy, hs, hc, hmem]
  · intro code2 exch2
    unfold oauthCallback
    simp [jsTruthy, hs, lookup_delete]

/-- Concrete instance of the claim-C9 theorem: with one registered state,
the first callback succeeds and the replayed one fails. -/
theorem C9_state_single_use_witness :
    (oauthCallback [("st1", { createdAt := 0, redirectAfterAuth := none })]
        (some "authcode") (some "st1") none
        (.succeeded { access_token := "at", token_type := "Bearer", expires_in := 3600,
                      refresh_token := "rt", scope := "read:schedule" }) =
      (.success { access_token := "at", token_type := "Bearer", expires_in := 3600,
                  refresh_token := "rt", scope := "read:schedule" },
       OAuthStates.delete [("st1", { createdAt := 0, redirectAfterAuth := none })] "st1")) ∧
    ((oauthCallback
        (OAuthStates.delete [("st1", { createdAt := 0, redirectAfterAuth := none })] "st1")
        (some "authcode") (some "st1") none
        (.succeeded { access_token := "at", token_type := "Bearer", expires_in := 3600,
                      refresh_token := "rt", scope := "read:schedule" })).1 = .invalidState) :=
  ⟨(C9_state_single_use [("st1", { createdAt := 0, redirectAfterAuth := none })]
      "st1" "authcode" { createdAt := 0, redirectAfterAuth := none }
      { access_token := "at", token_type := "Bearer", expires_in := 3600,
        refresh_token := "rt", scope := "read:schedule" }
      (by decide) (by decide) (by decide)).2.1,
   (C9_state_single_use [("st1", { createdAt := 0, redirectAfterAuth := none })]
      "st1" "authcode" { createdAt := 0, redirectAfterAuth := none }
      { access_token := "at", token_type := "Bearer", expires_in := 3600,
        refresh_token := "rt", scope := "read:schedule" }
      (by decide) (by decide) (by decide)).2.2 (some "authcode")
      (.succeeded { access_token := "at", token_type := "Bearer", expires_in := 3600,
                    refresh_token := "rt", scope := "read:schedule" })⟩

/-- Request carrying only the legacy custom credential headers. -/
def headerOnlyReq (u p : String) : AuthRequest :=
  { authorization := none
    xOncallsUsername := some u
    xOncallsPassword := some p
    queryUsername := none
    queryPassword := none
    queryAccessToken := none }

/-- Request carrying only an Authorization header. -/
def bearerOnlyReq (ah : String) : AuthRequest :=
  { authorization := some ah
    xOncallsUsername := none
    xOncallsPassword := none
    queryUsername := none
    queryPassword := none
    queryAccessToken := none }

/-- Environment for the claim-C4 counterexample: the upstream accepts the
password `pw` for every username; the freshness inputs (`Date.now()` value
and random suffix) are held fixed so that the session identifiers of the
two resolutions differ only in their credential-derived content. -/
def c4Env : AuthEnv :=
  { baseUrlConfigured := true
    oauthAuth := fun _ => .error "invalid token"
    passwordAuth := fun u p =>
      if p = "pw" then
        .ok { docId := 1, groupId := 2, username := u, firstName := "F",
              lastName := "L", email := "user@example.org", isAdmin := false, viewReqs := false }
      else .error "Authentication failed: Invalid credentials"
    b64decode := fun _ => "garbage"
    nowMs := 0
    rand := "k7f2q" }

/-- Refutation of claim C4 as stated: two successful resolutions through the
custom-header method, identical except for the presented username and with
equal freshness inputs, produce session identifiers `alice-0-k7f2q` and
`bob-0-k7f2q` — each embeds the presented username as its prefix, so the
identifiers are credential-derived and mutually distinguishable, contrary
to the claim that the identifier is not derived from any part of the
credential. -/
theorem C4_counterexample :
    authMiddleware c4Env (headerOnlyReq "alice" "pw") =
      .authenticated .legacyHeaders "alice-0-k7f2q"
        { docId := 1, groupId := 2, username := "alice", firstName := "F",
          lastName := "L", email := "user@example.org", isAdmin := false, viewReqs := false } ∧
    authMiddleware c4Env (headerOnlyReq "bob" "pw") =
      .authenticated .legacyHeaders "bob-0-k7f2q"
        { docId := 1, groupId := 2, username := "bob", firstName := "F",
          lastName := "L", email := "user@example.org", isAdmin := false, viewReqs := false } ∧
    ("alice-0-k7f2q" : String) ≠ "bob-0-k7f2q" := by
  refine ⟨?_, ?_, by decide⟩ <;> decide

/-- Claim C4 as amended: the minted session identifier always contains the
fresh timestamp/randomness pair; on the OAuth bearer path it is independent
of the presented token, and on the custom-header password path it is
independent of the password — it is the presented username, followed by the
fresh suffix.  Resolutions differing only in password (or only in OAuth
token) therefore get identifiers with identical credential-derived content,
but resolutions differing in username do not. -/
theorem C4_amended_sessionId_provenance (env : AuthEnv) :
    (∀ u p1 p2 user1 user2,
      env.baseUrlConfigured = true → u ≠ "" → p1 ≠ "" → p2 ≠ "" →
      env.passwordAuth u p1 = .ok user1 → env.passwordAuth u p2 = .ok user2 →
      authMiddleware env (headerOnlyReq u p1) =
        .authenticated .legacyHeaders (legacySessionId env u) user1 ∧
      authMiddleware env (headerOnlyReq u p2) =
        .authenticated .legacyHeaders (legacySessionId env u) user2) ∧
    (∀ ah token user,
      env.baseUrlConfigured = true →
      strStartsWith ah "Bearer " = true → ah.drop 7 = token →
      (jsSplit token '.').length = 3 → env.oauthAuth token = .ok user →
      authMiddleware env (bearerOnlyReq ah) =
        .authenticated .oauthBearer (oauthSessionId env) user) := by
  constructor
  · intro u p1 p2 user1 user2 hcfg hu hp1 hp2 hpw1 hpw2
    constructor
    · unfold authMiddleware
      rw [hcfg]
      show authMethodsAfterBearer env (headerOnlyReq u p1) = _
      unfold authMethodsAfterBearer
      simp [headerOnlyReq, jsTruthy, hu, hp1, hpw1]
    · unfold authMiddleware
      rw [hcfg]
      show authMethodsAfterBearer env (headerOnlyReq u p2) = _
      unfold authMethodsAfterBearer
      simp [headerOnlyReq, jsTruthy, hu, hp2, hpw2]
  · intro ah token user hcfg hbearer htok hjwt hoauth
    unfold authMiddleware
    rw [hcfg]
    show (if strStartsWith ah "Bearer " then _ else _ : AuthOutcome) = _
    simp only [hbearer, if_true, htok, hjwt, if_pos rfl, hoauth]

/-- Identity returned by the upstream in the amended-claim-C4 scenario. -/
def c4AmendedUser : UserContext :=
  { docId := 42, groupId := 3, username := "ada", firstName := "Ada",
    lastName := "Lee", email := "ada@example.org", isAdmin := false, viewReqs := false }

/-- Environment for the amended-claim-C4 scenario: the upstream accepts two
different passwords for the user ada (say, before and after a password
change) as well as one JWT-shaped OAuth token. -/
def c4AmendedEnv : AuthEnv :=
  { baseUrlConfigured := true
    oauthAuth := fun t =>
      if t = "aa.bb.cc" then .ok c4AmendedUser else .error "invalid token"
    passwordAuth := fun u p =>
      if u = "ada" && (p = "pw1" || p = "pw2") then .ok c4AmendedUser
      else .error "Authentication failed: Invalid credentials"
    b64decode := fun _ => "garbage"
    nowMs := 0
    rand := "k7f2q" }

/-- Concrete instance of the amended claim-C4 theorem: two logins by the
same user with different (accepted) passwords get identifiers with the same
credential-derived content, and an accepted JWT-shaped bearer token gets
the credential-free `oauth-` identifier. -/
theorem C4_amended_sessionId_provenance_witness :
    (authMiddleware c4AmendedEnv (headerOnlyReq "ada" "pw1") =
      .authenticated .legacyHeaders (legacySessionId c4AmendedEnv "ada") c4AmendedUser ∧
     authMiddleware c4AmendedEnv (headerOnlyReq "ada" "pw2") =
      .authenticated .legacyHeaders (legacySessionId c4AmendedEnv "ada") c4AmendedUser) ∧
    authMiddleware c4AmendedEnv (bearerOnlyReq "Bearer aa.bb.cc") =
      .authenticated .oauthBearer (oauthSessionId c4AmendedEnv) c4AmendedUser :=
  ⟨(C4_amended_sessionId_provenance c4AmendedEnv).1 "ada" "pw1" "pw2"
      c4AmendedUser c4AmendedUser rfl (by decide) (by decide) (by decide) rfl rfl,
   (C4_amended_sessionId_provenance c4AmendedEnv).2 "Bearer aa.bb.cc" "aa.bb.cc"
      c4AmendedUser rfl (by decide) (by decide) (by decide) rfl⟩

/-- Login body with HTTP 200 and `status: true` whose `token` field is the
empty string. -/
def emptyTokenBody : OncallsLoginResponse :=
  { status := true
    message := none
    token := ""
    refresh_token := "ref"
    data :=
      { GroupId := 3, docid := 42, viewReqs := false, Admin := false,
        fname := "Ada", lname := "Lee", user_email := "ada@example.org", isdoc := true } }

/-- Session state reached by one successful `authenticate()` whose 200
response carried `status: true` but an empty `token`. -/
def emptyTokenClient : OncallsClient :=
  stepOp
    (OncallsClient.create
      { baseUrl := "https://v3.oncalls.com/api", username := "ada", password := "pw" })
    (.doAuthenticate 0 (.succeeded emptyTokenBody))

/-- Refutation of claim C5 as stated: a reachable session state (one
successful authentication against a 200/`status: true` login response whose
`token` field is empty) reports `isAuthenticated = true` while the stored
access token is the empty string — `hasTokens()` only checks that the token
record is present (`accessToken !== null` is vacuous for a string), so the
invariant "authenticated implies non-empty access token" fails. -/
theorem C5_counterexample :
    emptyTokenClient.isAuthenticated = true ∧
    emptyTokenClient.tokenManager.getAccessToken = some "" := by
  exact ⟨rfl, rfl⟩

/-- The access token recorded by `setTokens` is the one supplied. -/
lemma setTokens_getAccessToken (tm : TokenManager) (now : Int) (a r : String) (ttl : Int) :
    (tm.setTokens now a r ttl).getAccessToken = some a := rfl

/-- The access token recorded by a successful `updateAccessToken` is the one
supplied. -/
lemma updateAccessToken_getAccessToken {tm tm2 : TokenManager} {now : Int}
    {a : String} {ttl : Int}
    (h : tm.updateAccessToken now a ttl = .ok tm2) :
    tm2.getAccessToken = some a := by
  unfold TokenManager.updateAccessToken at h
  cases htd : tm.tokenData with
  | none => rw [htd] at h; simp at h
  | some d =>
    rw [htd] at h
    simp only [Except.ok.injEq] at h
    subst h
    rfl

/-- A client produced by a successful `authenticate()` against a login
outcome with a non-empty token satisfies the access-token invariant. -/
lemma authenticate_ok_good {c c2 : OncallsClient} {now : Int}
    {r : FetchOutcome OncallsLoginResponse}
    (h : c.authenticate now r = .ok c2) (hg : loginResultGood r) :
    tokensGood c2 := by
  unfold OncallsClient.authenticate at h
  split at h
  · simp at h
  · simp at h
  · rename_i d
    split at h
    · simp at h
    · simp only [Except.ok.injEq] at h
      subst h
      intro _
      exact ⟨d.token, rfl, hg⟩

/-- A client produced by a successful catch-retried `authenticate()`
satisfies the access-token invariant. -/
lemma reAuthInTry_ok_good {c c2 : OncallsClient} {env : NetEnv}
    (h : c.reAuthInTry env = .ok c2) (hg : loginResultGood env.loginResult) :
    tokensGood c2 := by
  unfold OncallsClient.reAuthInTry at h
  split at h
  · rename_i c3 heq
    simp only [Except.ok.injEq] at h
    subst h
    exact authenticate_ok_good heq hg
  · exact authenticate_ok_good h hg

/-- A client produced by a successful `refreshOAuthToken()` against a good
environment satisfies the access-token invariant. -/
lemma refreshOAuthToken_ok_good {c c2 : OncallsClient} {env : NetEnv}
    (h : c.refreshOAuthToken env = .ok c2)
    (hg : oauthRefreshGood env.oauthRefreshResult) :
    tokensGood c2 := by
  unfold OncallsClient.refreshOAuthToken at h
  split at h
  · simp at h
  · split at h
    · simp at h
    · split at h
      · simp at h
      · simp at h
      · rename_i d heq
        rw [heq] at hg
        split at h
        · simp at h
        · rename_i tm hup
          simp only [Except.ok.injEq] at h
          subst h
          intro _
          by_cases hrt2 : jsTruthy d.refresh_token
          · exact ⟨d.access_token, by simp [hrt2, setTokens_getAccessToken], hg⟩
          · exact ⟨d.access_token,
              by simpa [hrt2] using updateAccessToken_getAccessToken hup, hg⟩

/-- A client produced by a successful `refreshToken()` against a good
environment satisfies the access-token invariant. -/
lemma refreshToken_ok_good {c c2 : OncallsClient} {env : NetEnv}
    (h : c.refreshToken env = .ok c2) (hg : envGood env) (hc : tokensGood c) :
    tokensGood c2 := by
  unfold OncallsClient.refreshToken at h
  split at h
  · split at h
    · simp at h
    · exact authenticate_ok_good h hg.1
  · split at h
    · exact refreshOAuthToken_ok_good h hg.2
    · split at h
      · exact authenticate_ok_good h hg.1
      · exact reAuthInTry_ok_good h hg.1
      · rename_i d heq
        simp only [] at h
        split at h
        · rename_i hnt
          split at h
          · rename_i tm hup
            simp only [Except.ok.injEq] at h
            subst h
            intro _
            refine ⟨(jsOrElse d.access_token d.token).getD "",
              updateAccessToken_getAccessToken hup, ?_⟩
            revert hnt
            cases jsOrElse d.access_token d.token with
            | none => intro hnt; simp [jsTruthy] at hnt
            | some t => intro hnt; simpa [jsTruthy] using hnt
          · exact reAuthInTry_ok_good h hg.1
        · exact reAuthInTry_ok_good h hg.1

/-- A client produced by a successful `ensureAuthenticated()` against a
good environment satisfies the access-token invariant whenever the starting
client did. -/
lemma ensureAuthenticated_ok_good {c c2 : OncallsClient} {env : NetEnv}
    (h : c.ensureAuthenticated env = .ok c2) (hg : envGood env) (hc : tokensGood c) :
    tokensGood c2 := by
  unfold OncallsClient.ensureAuthenticated at h
  split at h
  · split at h
    · simp at h
    · exact authenticate_ok_good h hg.1
  · split at h
    · exact refreshToken_ok_good h hg hc
    · simp only [Except.ok.injEq] at h
      subst h
      exact hc

/-- One good operation preserves the access-token invariant. -/
lemma stepOp_good {c : OncallsClient} {op : SessionOp}
    (hop : opGood op) (hc : tokensGood c) : tokensGood (stepOp c op) := by
  cases op with
  | doAuthenticate now r =>
    simp only [stepOp]
    unfold applyExcept
    split
    · rename_i c2 heq
      exact authenticate_ok_good heq hop
    · exact hc
  | doEnsureAuthenticated env =>
    simp only [stepOp]
    unfold applyExcept
    split
    · rename_i c2 heq
      exact ensureAuthenticated_ok_good heq hop hc
    · exact hc

/-- Claim C5 as amended: over every operation sequence in which each
upstream-supplied token is non-empty (`status: true` login bodies carry a
non-empty `token`, OAuth refresh bodies carry a non-empty `access_token`),
a session that reports itself authenticated holds a non-empty access token.
Without that proviso the invariant guarantees only that a token record is
present — the stored access token may be the empty string, as the
counterexample shows. -/
theorem C5_amended_token_invariant (ops : List SessionOp) :
    ∀ c : OncallsClient, (∀ op ∈ ops, opGood op) → tokensGood c →
      tokensGood (runOps c ops) := by
  induction ops with
  | nil =>
    intro c _ hc
    exact hc
  | cons op rest ih =>
    intro c hops hc
    show tokensGood (runOps (stepOp c op) rest)
    exact ih (stepOp c op) (fun o ho => hops o (List.mem_cons_of_mem op ho))
      (stepOp_good (hops op (List.mem_cons_self op rest)) hc)

/-- Login body with HTTP 200, `status: true` and a non-empty token. -/
def goodTokenBody : OncallsLoginResponse :=
  { status := true
    message := none
    token := "tok"
    refresh_token := "ref"
    data :=
      { GroupId := 3, docid := 42, viewReqs := false, Admin := false,
        fname := "Ada", lname := "Lee", user_email := "ada@example.org", isdoc := true } }

/-- Concrete instance of the amended claim-C5 theorem: after one successful
authentication with a non-empty token, the invariant holds of the reached
state. -/
theorem C5_amended_token_invariant_witness :
    tokensGood
      (runOps
        (OncallsClient.create
          { baseUrl := "https://v3.oncalls.com/api", username := "ada", password := "pw" })
        [.doAuthenticate 0 (.succeeded goodTokenBody)]) :=
  C5_amended_token_invariant [.doAuthenticate 0 (.succeeded goodTokenBody)]
    (OncallsClient.create
      { baseUrl := "https://v3.oncalls.com/api", username := "ada", password := "pw" })
    (by intro op ho
        simp only [List.mem_singleton] at ho
        subst ho
        show goodTokenBody.token ≠ ""
        decide)
    (by intro hauth
        simp [OncallsClient.create, OncallsClient.isAuthenticated,
          TokenManager.hasTokens] at hauth)
